import Mathlib

/-!
Verification of the `sparky-research` publishing pipeline: a shallow
embedding of the three executable components of the repository:

* `publish.sh`          — the publish orchestrator (bash),
* `convert-to-html.js`  — the markdown renderer (node),
* `send-to-readwise.js` — the direct HTML sender (node).

Strings are modelled by Lean `String`; all string primitives used by the
embedding are defined here on top of `List Char` so that every definition is
executable and kernel-reducible (`decide`/`rfl` can evaluate them).  Line
endings are modelled as LF (`'\n'`); effects (console writes, process spawns,
HTTP requests, sleeps) are modelled as explicit trace events; a run of a
script is a pure function from its inputs and its environment (file system
contents, HTTP responses) to an exit code and a trace.
-/

namespace Sparky

/-- Test `t.data.isPrefixOf s.data`: does `s` start with `t`?  (Executable
replacement for `String.startsWith`, kept kernel-reducible.) -/
def strStartsWith (s t : String) : Bool :=
  t.data.isPrefixOf s.data

/-- Does `s` end with `t`?  (Kernel-reducible `String.endsWith`.) -/
def strEndsWith (s t : String) : Bool :=
  t.data.isSuffixOf s.data

/-- Drop the first `n` characters of `s`. -/
def strDrop (s : String) (n : Nat) : String :=
  String.mk (s.data.drop n)

/-- Drop the last `n` characters of `s`. -/
def strDropRight (s : String) (n : Nat) : String :=
  String.mk (s.data.take (s.data.length - n))

/-- Split a character list at every occurrence of `sep` (the separator is
consumed; empty fields are kept, as in JS `String.split` for a single-char
separator and bash `IFS`-style splitting used by the embedded scripts). -/
def splitCharList (sep : Char) : List Char → List (List Char)
  | [] => [[]]
  | c :: rest =>
    let r := splitCharList sep rest
    if c = sep then [] :: r
    else
      match r with
      | [] => [[c]]
      | h :: t => (c :: h) :: t

/-- Split a string on a single-character separator. -/
def splitOnChar (sep : Char) (s : String) : List String :=
  (splitCharList sep s.data).map (fun l => String.mk l)

/-- Trim ASCII whitespace from both ends (model of JS `String.trim` for the
whitespace that can realistically occur in a CLI tag list). -/
def strTrim (s : String) : String :=
  String.mk (((s.data.dropWhile Char.isWhitespace).reverse.dropWhile Char.isWhitespace).reverse)

/-- The lines of a document, splitting on `'\n'` (LF line-ending model). -/
def linesOf (s : String) : List String :=
  splitOnChar '\n' s

/-- POSIX / Node `path.basename` without an extension argument: the last
non-empty path component (`""` when there is none). -/
def basenamePlain (p : String) : String :=
  (((splitOnChar '/' p).reverse).dropWhile (fun c => c = "")).headD ""

/-- Node's `path.basename(p, '.md')` (`convert-to-html.js` line 136).
Node first special-cases `p === ext` (returning `""`), otherwise strips a
trailing `".md"` from the basename unless the stripped result would be
empty, in which case the basename is returned unchanged. -/
def basenameMd (p : String) : String :=
  if p = ".md" then ""
  else
    let b := basenamePlain p
    if strEndsWith b ".md" && b != ".md" then strDropRight b 3 else b


/-! ## Markdown renderer (`convert-to-html.js`) -/

def htmlDocA : String :=
  "<!DOCTYPE html>\n<html lang=\"en\">\n<head>\n  <meta charset=\"UTF-8\">\n  <meta name=\"viewport\" content=\"width=device-width, initial-scale=1.0\">\n  <title>"

def htmlDocB : String :=
  "</title>\n  <style>\n    body \x7b\n      font-family: -apple-system, BlinkMacSystemFont, \x27Segoe UI\x27, Helvetica, Arial, sans-serif;\n      line-height: 1.6;\n      max-width: 800px;\n      margin: 40px auto;\n      padding: 0 20px;\n      color: #24292e;\n      background: #ffffff;\n    \x7d\n    h1, h2, h3, h4, h5, h6 \x7b\n      margin-top: 24px;\n      margin-bottom: 16px;\n      font-weight: 600;\n      line-height: 1.25;\n    \x7d\n    h1 \x7b\n      font-size: 2em;\n      border-bottom: 1px solid #eaecef;\n      padding-bottom: 0.3em;\n    \x7d\n    h2 \x7b\n      font-size: 1.5em;\n      border-bottom: 1px solid #eaecef;\n      padding-bottom: 0.3em;\n    \x7d\n    h3 \x7b font-size: 1.25em; \x7d\n    code \x7b\n      background: #f6f8fa;\n      padding: 0.2em 0.4em;\n      border-radius: 3px;\n      font-family: \x27SFMono-Regular\x27, Consolas, \x27Liberation Mono\x27, Menlo, monospace;\n      font-size: 85%;\n    \x7d\n    pre \x7b\n      background: #f6f8fa;\n      padding: 16px;\n      border-radius: 6px;\n      overflow-x: auto;\n      line-height: 1.45;\n    \x7d\n    pre code \x7b\n      background: none;\n      padding: 0;\n      font-size: 100%;\n    \x7d\n    a \x7b\n      color: #0366d6;\n      text-decoration: none;\n    \x7d\n    a:hover \x7b\n      text-decoration: underline;\n    \x7d\n    ul, ol \x7b\n      padding-left: 2em;\n      margin: 16px 0;\n    \x7d\n    li \x7b\n      margin: 0.25em 0;\n    \x7d\n    li > p \x7b\n      margin-top: 16px;\n    \x7d\n    blockquote \x7b\n      padding: 0 1em;\n      color: #6a737d;\n      border-left: 0.25em solid #dfe2e5;\n      margin: 16px 0;\n    \x7d\n    hr \x7b\n      height: 0.25em;\n      padding: 0;\n      margin: 24px 0;\n      background-color: #e1e4e8;\n      border: 0;\n    \x7d\n    table \x7b\n      border-collapse: collapse;\n      width: 100%;\n      margin: 16px 0;\n    \x7d\n    table th, table td \x7b\n      padding: 6px 13px;\n      border: 1px solid #dfe2e5;\n    \x7d\n    table th \x7b\n      font-weight: 600;\n      background: #f6f8fa;\n    \x7d\n    table tr:nth-child(2n) \x7b\n      background: #f6f8fa;\n    \x7d\n    img \x7b\n      max-width: 100%;\n      box-sizing: border-box;\n    \x7d\n  </style>\n</head>\n<body>\n"

def htmlDocC : String :=
  "\n</body>\n</html>"

/-- The fixed self-contained document template of
`createHtmlDocument(title, content)` (`convert-to-html.js` lines 11-120):
the rendered body is wrapped in a full HTML document whose `<title>` element
holds the extracted title and whose CSS is inlined verbatim. -/
def createHtmlDocument (title content : String) : String :=
  htmlDocA ++ title ++ htmlDocB ++ content ++ htmlDocC

/-- A line matched by the title regex `/^# (.+)$/m` of `convert-to-html.js`
line 135: the line starts with `"# "` and at least one character follows
(`.+` cannot be empty; within a line there are no line terminators). -/
def isH1Line (l : String) : Bool :=
  strStartsWith l "# " && strDrop l 2 != ""

/-- Title extraction (`convert-to-html.js` lines 135-136): the text after
`"# "` on the first line matching `/^# (.+)$/m`, falling back to
`path.basename(inputFile, '.md')` when no line matches. -/
def extractTitle (markdown inputFile : String) : String :=
  match (linesOf markdown).find? isH1Line with
  | some l => strDrop l 2
  | none => basenameMd inputFile

/-- Default output path (`convert-to-html.js` line 129):
`inputFile.replace(/\.md$/, '.html')` — the anchored regex rewrites a
trailing `".md"` to `".html"` and leaves any other path unchanged. -/
def rendererDefaultOutput (input : String) : String :=
  if strEndsWith input ".md" then strDropRight input 3 ++ ".html" else input

/-- The full document the renderer produces for a markdown source.  The
third-party `marked` renderer is external to the repository and is abstracted
as the function argument `mrender`. -/
def convertedDocument (mrender : String → String) (markdown inputFile : String) : String :=
  createHtmlDocument (extractTitle markdown inputFile) (mrender markdown)

/-- Observable effects of a `convert-to-html.js` run: console messages and
the single file write. -/
inductive CEvent where
  | errMsg (s : String)
  | write (path content : String)
  | log (s : String)
deriving DecidableEq

/-- A run of `convert-to-html.js` (lines 123-147).  `args` are the positional
arguments after the script name (`process.argv[2..]`), `file` is the outcome
of `fs.readFileSync` on the input path (`Except.error msg` models a thrown
error whose `err.message` is `msg`).  Returns the exit code and the trace. -/
def runConvert (mrender : String → String) (args : List String)
    (file : Except String String) : Nat × List CEvent :=
  match args with
  | [] => (1, [CEvent.errMsg "Usage: node convert-to-html.js input.md [output.html]"])
  | input :: rest =>
    let outputFile :=
      match rest.get? 0 with
      | some o => if o = "" then rendererDefaultOutput input else o
      | none => rendererDefaultOutput input
    match file with
    | Except.error e => (1, [CEvent.errMsg ("Error: " ++ e)])
    | Except.ok md =>
      (0, [CEvent.write outputFile (convertedDocument mrender md input),
           CEvent.log ("\u2713 Converted " ++ input ++ " \u2192 " ++ outputFile)])

/-! ## Publish orchestrator (`publish.sh`)

`publish.sh` runs under `set -e`; the model below covers runs in which the
external commands (`node`, `git add/commit/push`) succeed — exactly the runs
that reach the deploy-poll and notification steps.  Two pieces of standard
tool behaviour are part of the embedding: `curl -s -o /dev/null -w
"%{http_code}"` prints the status and exits 0, and the final plain `curl -X
POST` (no `--fail`) also exits 0 for every HTTP status code — curl's process
exit code is non-zero only for transport-level failures, so `set -e` never
aborts on an HTTP error status, and the script never inspects the POST's
status.  `postStatus` (the bookmarking API's HTTP status) is therefore an
input the run's exit code and trace do not depend on. -/

/-- Observable effects of a `publish.sh` run, in order. -/
inductive Event where
  | echo (s : String)
  | render (f : String)
  | gitAdd (a b : String)
  | gitCommit (m : String)
  | gitPush
  | httpGet (u : String)
  | sleep (n : Nat)
  | httpPost (u body : String)
deriving DecidableEq

/-- Bash `${MARKDOWN_FILE%.md}` (line 25): strip a trailing literal `".md"`
if present. -/
def stripMd (s : String) : String :=
  if strEndsWith s ".md" then strDropRight s 3 else s

/-- Line 25, `HTML_BASENAME=$(basename "${MARKDOWN_FILE%.md}.html")`. -/
def htmlBasename (md : String) : String :=
  basenamePlain (stripMd md ++ ".html")

/-- Line 26, `HTML_FILE="docs/$HTML_BASENAME"`: the path `git add` stages. -/
def stagedHtmlPath (md : String) : String :=
  "docs/" ++ htmlBasename md

/-- Line 37,
`HTML_URL="https://jrellegood.github.io/sparky-research/$HTML_BASENAME"`:
the computed public URL that is polled and then bookmarked. -/
def pollUrl (md : String) : String :=
  "https://jrellegood.github.io/sparky-research/" ++ htmlBasename md

/-- The bookmarking API endpoint both entry points POST to. -/
def readwiseEndpoint : String :=
  "https://readwise.io/api/v3/save/"

/-- The GitHub blob base URL used in the final console output of `publish.sh`
and in the direct sender's payload `url` field. -/
def githubBlobBase : String :=
  "https://github.com/jrellegood/sparky-research/blob/main/"

/-- Line 14, `TAGS="${3:-sparky}"`: the third positional argument, with the
fixed default `"sparky"` when it is absent or empty.  `rest` is the argument
list after `<markdown-file> <title>`. -/
def tagsDefault (rest : List String) : String :=
  match rest.get? 0 with
  | some t => if t = "" then "sparky" else t
  | none => "sparky"

/-- Line 15, `NOTES="${4:-}"`. -/
def notesOf (rest : List String) : String :=
  (rest.get? 1).getD ""

/-- The `sed` pipeline of line 73: every `,` becomes `", "`, and the whole
string is wrapped in double quotes, turning `a,b,c` into `"a", "b", "c"`. -/
def tagsJson (tags : String) : String :=
  "\"" ++ String.intercalate "\", \"" (splitOnChar ',' tags) ++ "\""

/-- The elements of the JSON `tags` array the orchestrator sends (the fields
produced by `tagsJson`). -/
def publishTagList (tags : String) : List String :=
  splitOnChar ',' tags

/-- The exact `-d` body of the `curl -X POST` (lines 66-75), with the shell
variables interpolated verbatim (the script performs no JSON escaping). -/
def publishBody (url title tags notes : String) : String :=
  "\x7b\n    \"url\": \"" ++ url ++ "\",\n    \"title\": \"" ++ title ++
  "\",\n    \"location\": \"feed\",\n    \"tags\": [" ++ tagsJson tags ++
  "],\n    \"notes\": \"" ++ notes ++ "\"\n  \x7d"

/-- Usage string printed by line 8 of `publish.sh`. -/
def usageMsgPublish : String :=
  "Usage: ./publish.sh <markdown-file> <title> [tags] [notes]"

/-- The deploy-poll loop (lines 42-53).  `respond k` is the HTTP status curl
reports for the `k`-th GET (attempt counter `ATTEMPT = k`); `a` is the
current value of `ATTEMPT` and `r` the remaining iterations of
`while [ $ATTEMPT -lt $MAX_ATTEMPTS ]`.  Each failed attempt prints `"."`
and sleeps 1 second before the counter is incremented; a status of exactly
200 prints the success message and breaks.  Returns the trace, the final
value of `ATTEMPT`, and whether the loop broke on success. -/
def pollLoop (respond : Nat → Nat) (url : String) : Nat → Nat → List Event × Nat × Bool
  | a, 0 => ([], a, false)
  | a, r + 1 =>
    if respond a = 200 then
      ([Event.httpGet url, Event.echo " ✓ Page is live!"], a, true)
    else
      let x := pollLoop respond url (a + 1) r
      (Event.httpGet url :: Event.echo "." :: Event.sleep 1 :: x.1, x.2)

/-- The deploy-poll as run by the script: `ATTEMPT=0`, `MAX_ATTEMPTS=60`. -/
def deployPoll (respond : Nat → Nat) (url : String) : List Event × Nat × Bool :=
  pollLoop respond url 0 60

/-- Number of HTTP GET events in a trace. -/
def countGets (l : List Event) : Nat :=
  l.countP fun e => match e with | Event.httpGet _ => true | _ => false

/-- Number of sleep events in a trace. -/
def countSleeps (l : List Event) : Nat :=
  l.countP fun e => match e with | Event.sleep _ => true | _ => false

/-- Trace of the steps preceding the deploy-poll (lines 22-40): render,
stage, commit, push, and the progress messages around them. -/
def prePollTrace (md title : String) : List Event :=
  [Event.echo "Converting to HTML...",
   Event.render md,
   Event.echo "Committing to git...",
   Event.gitAdd md (stagedHtmlPath md),
   Event.gitCommit ("Add: " ++ title),
   Event.echo "Pushing to GitHub...",
   Event.gitPush,
   Event.echo ("Waiting for GitHub Pages to deploy " ++ pollUrl md ++ "..."),
   Event.echo "(This usually takes 30-60 seconds)"]

/-- The warning block (lines 55-58), printed exactly when the loop exhausted
all attempts (`ATTEMPT -eq MAX_ATTEMPTS`). -/
def timeoutTrace : List Event :=
  [Event.echo "",
   Event.echo "Warning: Timed out waiting for GitHub Pages. Proceeding anyway..."]

/-- The notification step and final output (lines 61-81): one POST to the
bookmarking API followed by the success banner — unconditionally, whatever
the POST's HTTP status. -/
def notifyTrace (md title : String) (rest : List String) : List Event :=
  [Event.echo ("Sending to Readwise: " ++ pollUrl md),
   Event.httpPost readwiseEndpoint
     (publishBody (pollUrl md) title (tagsDefault rest) (notesOf rest)),
   Event.echo "",
   Event.echo "✓ Published successfully!",
   Event.echo ("  Markdown: " ++ githubBlobBase ++ md),
   Event.echo ("  HTML: " ++ pollUrl md)]

/-- A run of `publish.sh`.  `args` are the positional arguments,
`fileExists` the result of `[ -f "$MARKDOWN_FILE" ]`, `respond` the HTTP
statuses of the poll GETs, `postStatus` the bookmarking API's response
status (which, see the section comment, the script never inspects).
Returns the exit code and the effect trace. -/
def runPublish (args : List String) (fileExists : Bool) (respond : Nat → Nat)
    (_postStatus : Nat) : Nat × List Event :=
  match args with
  | md :: title :: rest =>
    if fileExists then
      let poll := deployPoll respond (pollUrl md)
      (0, prePollTrace md title ++ poll.1 ++
          (if poll.2.1 = 60 then timeoutTrace else []) ++
          notifyTrace md title rest)
    else
      (1, [Event.echo ("Error: File " ++ md ++ " not found")])
  | _ => (1, [Event.echo usageMsgPublish])

/-! ## Direct HTML sender (`send-to-readwise.js`, source under `src/unnamed`) -/

/-- Observable effects of a `send-to-readwise.js` run up to the point the
request is written: console error messages and the HTTP POST. -/
inductive SEvent where
  | errMsg (s : String)
  | httpPost (endpoint body : String)
deriving DecidableEq

/-- Title argument, `const title = process.argv[3] || '';` — `rest` is the
argument list after the HTML file path; JS `||` also replaces an empty
string. -/
def senderTitleArg (rest : List String) : String :=
  match rest.get? 0 with
  | some t => t
  | none => ""

/-- Tags argument, `const tags = process.argv[4] || 'sparky-research';`. -/
def senderTags (rest : List String) : String :=
  match rest.get? 1 with
  | some t => if t = "" then "sparky-research" else t
  | none => "sparky-research"

/-- Notes argument, `const notes = process.argv[5] || '';`. -/
def senderNotes (rest : List String) : String :=
  match rest.get? 2 with
  | some n => n
  | none => ""

/-- The elements of the payload's `tags` array:
`tags.split(',').map(t => t.trim())`. -/
def senderTagList (tags : String) : List String :=
  (splitOnChar ',' tags).map strTrim

/-- One position of the regex `/<title>([^<]+)<\/title>/`: if the text
starts with `<title>`, the candidate capture is the (maximal, and because
`[^<]` excludes `<`, the only possible) run of non-`<` characters after it,
which must be non-empty and be followed immediately by `</title>`. -/
def matchTitleAt (l : List Char) : Option (List Char) :=
  if ("<title>".data).isPrefixOf l then
    let after := l.drop 7
    let run := after.takeWhile (fun c => c ≠ '<')
    if run.isEmpty then none
    else if ("</title>".data).isPrefixOf (after.drop run.length) then some run
    else none
  else none

/-- The regex scan: first position at which `matchTitleAt` succeeds. -/
def findTitleCapture : List Char → Option (List Char)
  | [] => none
  | c :: rest =>
    match matchTitleAt (c :: rest) with
    | some r => some r
    | none => findTitleCapture rest

/-- Line 30 of the sender, `htmlContent.match(/<title>([^<]+)<\/title>/)`:
the first capture group of the first match, if any. -/
def extractHtmlTitle (content : String) : Option String :=
  (findTitleCapture content.data).map (fun cs => String.mk cs)

/-- Line 31, `const finalTitle = title || (titleMatch ? titleMatch[1] :
htmlFile);`.  This value is computed by the sender but — see `senderBody` —
never placed in the payload: it is dead code in the source. -/
def senderFinalTitle (content htmlFile titleArg : String) : String :=
  if titleArg = "" then (extractHtmlTitle content).getD htmlFile else titleArg

/-- One character of `JSON.stringify` string escaping. -/
def jsonEscapeChar (c : Char) : String :=
  if c = '"' then "\\\""
  else if c = '\\' then "\\\\"
  else if c = '\n' then "\\n"
  else if c = '\r' then "\\r"
  else if c = '\t' then "\\t"
  else if c = Char.ofNat 8 then "\\b"
  else if c = Char.ofNat 12 then "\\f"
  else if c.toNat < 32 then
    "\\u00" ++
    String.mk [if c.toNat / 16 < 10 then Char.ofNat (48 + c.toNat / 16) else Char.ofNat (87 + c.toNat / 16),
               if c.toNat % 16 < 10 then Char.ofNat (48 + c.toNat % 16) else Char.ofNat (87 + c.toNat % 16)]
  else String.mk [c]

/-- Serialization of a string value, as `JSON.stringify` renders it. -/
def jsonStr (s : String) : String :=
  "\"" ++ String.join (s.data.map jsonEscapeChar) ++ "\""

/-- Lines 33-44, `const data = JSON.stringify(payload);`: the serialized
payload in insertion order — `url`, `html`, `should_clean_html`,
`location`, `tags`, `notes`.  There is no `title` key: the payload object
literal of the source contains none. -/
def senderBody (htmlFile content tags notes : String) : String :=
  "\x7b\"url\":" ++ jsonStr (githubBlobBase ++ htmlFile) ++
  ",\"html\":" ++ jsonStr content ++
  ",\"should_clean_html\":true,\"location\":\"feed\",\"tags\":[" ++
  String.intercalate "," ((senderTagList tags).map jsonStr) ++
  "],\"notes\":" ++ jsonStr notes ++ "\x7d"

/-- A run of `send-to-readwise.js` up to writing the request.  `args` are
the positional arguments (`process.argv[2..]`), `token` the value of
`READWISE_ACCESS_TOKEN` (`none` = unset), `file` the outcome of
`fs.readFileSync(htmlFile, 'utf8')`.  The source checks, in order: argument
count, token presence (JS falsiness: unset or empty), then reads the file
inside `try` (a thrown error is reported by the `catch` block as
`Error: ${err.message}` with exit 1). -/
def runSender (args : List String) (token : Option String)
    (file : Except String String) : Nat × List SEvent :=
  match args with
  | [] => (1, [SEvent.errMsg "Usage: node send-to-readwise.js <html-file> [title] [tags] [notes]"])
  | htmlFile :: rest =>
    match token with
    | none => (1, [SEvent.errMsg "Error: READWISE_ACCESS_TOKEN not set"])
    | some tk =>
      if tk = "" then (1, [SEvent.errMsg "Error: READWISE_ACCESS_TOKEN not set"])
      else
        match file with
        | Except.error e => (1, [SEvent.errMsg ("Error: " ++ e)])
        | Except.ok content =>
          (0, [SEvent.httpPost readwiseEndpoint
                 (senderBody htmlFile content (senderTags rest) (senderNotes rest))])

/-- What the sender does with the API's response (lines 62-70 of the
source): `200` and `201` are accepted (the response body is parsed and the
saved URL logged — modelled as `ok` carrying the body); any other status is
a hard failure: `Error ${status}: ${body}` and `process.exit(1)`. -/
inductive SenderResult where
  | ok (body : String)
  | fail (code : Nat) (msg : String)
deriving DecidableEq

/-- The `res.on('end')` status check of the sender. -/
def handleEnd (status : Nat) (body : String) : SenderResult :=
  if status = 200 ∨ status = 201 then SenderResult.ok body
  else SenderResult.fail 1 ("Error " ++ toString status ++ ": " ++ body)

/-! ## Poll-loop lemmas (shared) -/

theorem pollLoop_zero (respond : Nat → Nat) (url : String) (a : Nat) :
    pollLoop respond url a 0 = ([], a, false) := rfl

theorem pollLoop_succ_hit (respond : Nat → Nat) (url : String) (a r : Nat)
    (h : respond a = 200) :
    pollLoop respond url a (r + 1) =
      ([Event.httpGet url, Event.echo " ✓ Page is live!"], a, true) := by
  simp [pollLoop, h]

theorem pollLoop_succ_miss (respond : Nat → Nat) (url : String) (a r : Nat)
    (h : ¬ respond a = 200) :
    pollLoop respond url a (r + 1) =
      (Event.httpGet url :: Event.echo "." :: Event.sleep 1 ::
         (pollLoop respond url (a + 1) r).1,
       (pollLoop respond url (a + 1) r).2) := by
  simp [pollLoop, h]

theorem countGets_pollLoop (respond : Nat → Nat) (url : String) :
    ∀ r a, countGets (pollLoop respond url a r).1 ≤ r := by
  intro r
  induction r with
  | zero => intro a; rw [pollLoop_zero]; simp [countGets]
  | succ r ih =>
    intro a
    by_cases h : respond a = 200
    · rw [pollLoop_succ_hit respond url a r h]
      simp [countGets, List.countP_cons]
    · rw [pollLoop_succ_miss respond url a r h]
      have hx := ih (a + 1)
      simp [countGets, List.countP_cons] at hx ⊢
      omega

theorem pollLoop_success_iff (respond : Nat → Nat) (url : String) :
    ∀ r a, (pollLoop respond url a r).2.2 = true ↔
      ∃ k, a ≤ k ∧ k < a + r ∧ respond k = 200 := by
  intro r
  induction r with
  | zero =>
    intro a
    rw [pollLoop_zero]
    constructor
    · intro h; cases h
    · rintro ⟨k, h1, h2, -⟩; omega
  | succ r ih =>
    intro a
    by_cases h : respond a = 200
    · rw [pollLoop_succ_hit respond url a r h]
      constructor
      · intro _; exact ⟨a, Nat.le_refl a, by omega, h⟩
      · intro _; rfl
    · rw [pollLoop_succ_miss respond url a r h]
      constructor
      · intro hs
        obtain ⟨k, hk1, hk2, hk3⟩ := (ih (a + 1)).mp hs
        exact ⟨k, by omega, by omega, hk3⟩
      · rintro ⟨k, hk1, hk2, hk3⟩
        apply (ih (a + 1)).mpr
        refine ⟨k, ?_, by omega, hk3⟩
        rcases Nat.eq_or_lt_of_le hk1 with he | hl
        · exact absurd hk3 (by rw [← he]; exact h)
        · omega

theorem sleeps_pollLoop (respond : Nat → Nat) (url : String) :
    ∀ r a, countGets (pollLoop respond url a r).1 =
      countSleeps (pollLoop respond url a r).1 +
        (if (pollLoop respond url a r).2.2 then 1 else 0) := by
  intro r
  induction r with
  | zero => intro a; rw [pollLoop_zero]; simp [countGets, countSleeps]
  | succ r ih =>
    intro a
    by_cases h : respond a = 200
    · rw [pollLoop_succ_hit respond url a r h]
      simp [countGets, countSleeps, List.countP_cons]
    · rw [pollLoop_succ_miss respond url a r h]
      have hx := ih (a + 1)
      simp only [countGets, countSleeps, List.countP_cons] at *
      cases hb : (pollLoop respond url (a + 1) r).2.2
      · rw [hb] at hx; simp at hx ⊢; omega
      · rw [hb] at hx; simp at hx ⊢; omega

theorem get_url_pollLoop (respond : Nat → Nat) (url : String) :
    ∀ r a u, Event.httpGet u ∈ (pollLoop respond url a r).1 → u = url := by
  intro r
  induction r with
  | zero => intro a u hu; rw [pollLoop_zero] at hu; cases hu
  | succ r ih =>
    intro a u hu
    by_cases h : respond a = 200
    · rw [pollLoop_succ_hit respond url a r h] at hu
      simp at hu
      exact hu
    · rw [pollLoop_succ_miss respond url a r h] at hu
      simp at hu
      rcases hu with h1 | h1
      · exact h1
      · exact ih (a + 1) u h1

theorem sleep_one_pollLoop (respond : Nat → Nat) (url : String) :
    ∀ r a n, Event.sleep n ∈ (pollLoop respond url a r).1 → n = 1 := by
  intro r
  induction r with
  | zero => intro a n hn; rw [pollLoop_zero] at hn; cases hn
  | succ r ih =>
    intro a n hn
    by_cases h : respond a = 200
    · rw [pollLoop_succ_hit respond url a r h] at hn
      simp at hn
    · rw [pollLoop_succ_miss respond url a r h] at hn
      simp at hn
      rcases hn with h1 | h1
      · exact h1
      · exact ih (a + 1) n h1

theorem pollLoop_exhaust (respond : Nat → Nat) (url : String) :
    ∀ r a, (∀ k, a ≤ k → k < a + r → respond k ≠ 200) →
      (pollLoop respond url a r).2.1 = a + r ∧
      (pollLoop respond url a r).2.2 = false := by
  intro r
  induction r with
  | zero => intro a _; rw [pollLoop_zero]; exact ⟨rfl, rfl⟩
  | succ r ih =>
    intro a hfail
    have ha : ¬ respond a = 200 := hfail a (Nat.le_refl a) (by omega)
    rw [pollLoop_succ_miss respond url a r ha]
    have := ih (a + 1) (fun k hk1 hk2 => hfail k (by omega) (by omega))
    exact ⟨by rw [this.1]; omega, this.2⟩

/-! ## Claim theorems -/

/-- **C1.** Every orchestrator run that reaches the deploy-poll issues at
most 60 HTTP GETs, all against the computed URL; every sleep in the poll is
exactly 1 second and there is one sleep per failed attempt (the number of
GETs equals the number of sleeps plus one exactly when the loop broke on
success); the loop succeeds iff some attempt among the first 60 returns the
exact status 200; and when all 60 attempts fail, the run prints the timeout
warning (`timeoutTrace`) and still proceeds to the notification POST
(`notifyTrace`, which contains the `httpPost` to the bookmarking API),
exiting 0 instead of aborting. -/
theorem c1_deploy_poll_bounded (respond : Nat → Nat) (md title : String)
    (rest : List String) (post : Nat) :
    countGets (deployPoll respond (pollUrl md)).1 ≤ 60 ∧
    (∀ u, Event.httpGet u ∈ (deployPoll respond (pollUrl md)).1 → u = pollUrl md) ∧
    (∀ n, Event.sleep n ∈ (deployPoll respond (pollUrl md)).1 → n = 1) ∧
    countGets (deployPoll respond (pollUrl md)).1 =
      countSleeps (deployPoll respond (pollUrl md)).1 +
        (if (deployPoll respond (pollUrl md)).2.2 then 1 else 0) ∧
    ((deployPoll respond (pollUrl md)).2.2 = true ↔ ∃ k, k < 60 ∧ respond k = 200) ∧
    ((∀ k, k < 60 → respond k ≠ 200) →
      runPublish (md :: title :: rest) true respond post =
        (0, prePollTrace md title ++ (deployPoll respond (pollUrl md)).1 ++
            timeoutTrace ++ notifyTrace md title rest)) := by
  refine ⟨countGets_pollLoop respond (pollUrl md) 60 0,
          fun u hu => get_url_pollLoop respond (pollUrl md) 60 0 u hu,
          fun n hn => sleep_one_pollLoop respond (pollUrl md) 60 0 n hn,
          sleeps_pollLoop respond (pollUrl md) 60 0, ?_, ?_⟩
  · rw [show deployPoll respond (pollUrl md) = pollLoop respond (pollUrl md) 0 60 from rfl,
        pollLoop_success_iff respond (pollUrl md) 60 0]
    constructor
    · rintro ⟨k, -, hk2, hk3⟩; exact ⟨k, by omega, hk3⟩
    · rintro ⟨k, hk1, hk2⟩; exact ⟨k, by omega, by omega, hk2⟩
  · intro hex
    have hfail := pollLoop_exhaust respond (pollUrl md) 60 0
      (fun k _ hk2 => hex k (by omega))
    have hfin : (deployPoll respond (pollUrl md)).2.1 = 60 := by
      rw [show deployPoll respond (pollUrl md) = pollLoop respond (pollUrl md) 0 60 from rfl,
          hfail.1]
    show runPublish (md :: title :: rest) true respond post = _
    simp only [runPublish, if_true, hfin]

/-- Witness for C1: with every poll attempt answering 404, the run makes at
most 60 GETs, prints the warning, and still reaches the notification POST
with exit code 0. -/
theorem c1_deploy_poll_bounded_witness :
    countGets (deployPoll (fun _ => 404) (pollUrl "a.md")).1 ≤ 60 ∧
    runPublish ["a.md", "T"] true (fun _ => 404) 200 =
      (0, prePollTrace "a.md" "T" ++ (deployPoll (fun _ => 404) (pollUrl "a.md")).1 ++
          timeoutTrace ++ notifyTrace "a.md" "T" []) :=
  ⟨(c1_deploy_poll_bounded (fun _ => 404) "a.md" "T" [] 200).1,
   (c1_deploy_poll_bounded (fun _ => 404) "a.md" "T" [] 200).2.2.2.2.2
     (by decide)⟩

/-- **C2 counterexample.**  The claim says a non-2xx response to the
orchestrator's bookmarking POST makes the run exit non-zero.  It does not:
`publish.sh` POSTs with a plain `curl` (no `--fail`, no status check), whose
process exit code is 0 for any HTTP status, so with the API answering 500
the run exits 0 and prints the success banner. -/
theorem c2_counterexample :
    (runPublish ["a.md", "Title"] true (fun _ => 200) 500).1 = 0 ∧
    Event.echo "✓ Published successfully!" ∈
      (runPublish ["a.md", "Title"] true (fun _ => 200) 500).2 := by
  refine ⟨rfl, by decide⟩

/-- **C2 amended.**  The hard failure on a non-success HTTP status lives in
the direct sender, not the orchestrator: the sender's response handler
treats any status other than 200/201 as fatal, reporting
`Error <status>: <body>` and exiting 1, while the orchestrator's run exits 0
whatever the bookmarking API's status (and whatever the deploy-poll did —
a poll timeout likewise does not fail the run). -/
theorem c2_amended_failure_split (status : Nat) (body md title : String)
    (rest : List String) (respond : Nat → Nat) (post : Nat) :
    (status ≠ 200 → status ≠ 201 →
      handleEnd status body =
        SenderResult.fail 1 ("Error " ++ toString status ++ ": " ++ body)) ∧
    (runPublish (md :: title :: rest) true respond post).1 = 0 := by
  constructor
  · intro h1 h2
    unfold handleEnd
    rw [if_neg]
    rintro (h | h)
    · exact h1 h
    · exact h2 h
  · rfl

/-- Witness for C2 amended: a 500 from the API is a hard failure for the
sender and no failure at all for the orchestrator (here with every poll
attempt failing too). -/
theorem c2_amended_witness :
    handleEnd 500 "oops" =
      SenderResult.fail 1 ("Error " ++ toString 500 ++ ": " ++ "oops") ∧
    (runPublish ["a.md", "T"] true (fun _ => 404) 500).1 = 0 :=
  ⟨(c2_amended_failure_split 500 "oops" "a.md" "T" [] (fun _ => 404) 500).1
     (by decide) (by decide),
   (c2_amended_failure_split 500 "oops" "a.md" "T" [] (fun _ => 404) 500).2⟩

/-- **C3 (evaluation at the failing input).**  For a repo-root markdown file
— the layout of this repository's articles and of the script's own usage
example — the renderer writes the HTML sibling of the input
(`inputFile.replace(/\.md$/, '.html')`), while `publish.sh` stages
`docs/<basename>.html`, a path the renderer never wrote; the two agree only
when the markdown already lives directly under `docs/`. -/
theorem c3_staged_vs_rendered_path :
    rendererDefaultOutput "2026-02-25-openclaw-skills-architecture.md" =
      "2026-02-25-openclaw-skills-architecture.html" ∧
    stagedHtmlPath "2026-02-25-openclaw-skills-architecture.md" =
      "docs/2026-02-25-openclaw-skills-architecture.html" ∧
    stagedHtmlPath "2026-02-25-openclaw-skills-architecture.md" ≠
      rendererDefaultOutput "2026-02-25-openclaw-skills-architecture.md" ∧
    stagedHtmlPath "docs/example.md" = rendererDefaultOutput "docs/example.md" := by
  refine ⟨by decide, by decide, by decide, by decide⟩

/-- **C6.**  With fewer than two positional arguments `publish.sh` prints
the usage string and exits 1 with no other effect; with at least two
arguments and a missing markdown file it prints `Error: File <f> not found`
and exits 1 — in both cases the trace holds that one console message only:
no render, no git command, no HTTP request. -/
theorem c6_argument_and_file_checks (args : List String) (fe : Bool)
    (respond : Nat → Nat) (post : Nat) :
    (args.length < 2 →
      runPublish args fe respond post = (1, [Event.echo usageMsgPublish])) ∧
    (∀ md title rest, args = md :: title :: rest → fe = false →
      runPublish args fe respond post =
        (1, [Event.echo ("Error: File " ++ md ++ " not found")])) := by
  constructor
  · intro h
    match args with
    | [] => rfl
    | [a] => rfl
    | a :: b :: t =>
      simp only [List.length_cons] at h
      omega
  · rintro md title rest rfl rfl
    rfl

/-- Witness for C6: one argument triggers the usage error; two arguments
with a missing file trigger the file-not-found error. -/
theorem c6_witness :
    runPublish ["x.md"] true (fun _ => 200) 200 = (1, [Event.echo usageMsgPublish]) ∧
    runPublish ["x.md", "T"] false (fun _ => 200) 200 =
      (1, [Event.echo ("Error: File " ++ "x.md" ++ " not found")]) :=
  ⟨(c6_argument_and_file_checks ["x.md"] true (fun _ => 200) 200).1 (by decide),
   (c6_argument_and_file_checks ["x.md", "T"] false (fun _ => 200) 200).2
     "x.md" "T" [] rfl rfl⟩

/-- **C4.**  For every markdown input whose lines contain exactly one line
of the H1 form matched by the renderer's regex `/^# (.+)$/m`, the extracted
title is that heading's text verbatim (the characters after `"# "`), and it
is the string placed in the document's `<title>` element by the template. -/
theorem c4_unique_h1_title (md f l : String) (mr : String → String)
    (hcount : (linesOf md).countP isH1Line = 1) (hmem : l ∈ linesOf md)
    (hl : isH1Line l = true) :
    extractTitle md f = strDrop l 2 ∧
    convertedDocument mr md f = createHtmlDocument (strDrop l 2) (mr md) := by
  have hmain : extractTitle md f = strDrop l 2 := by
    cases hfind : (linesOf md).find? isH1Line with
    | none =>
      exact absurd hl (by simpa using List.find?_eq_none.mp hfind l hmem)
    | some m =>
      have hm_mem : m ∈ linesOf md := List.mem_of_find?_eq_some hfind
      have hm_p : isH1Line m = true := List.find?_some hfind
      have hflen : ((linesOf md).filter isH1Line).length = 1 := by
        rw [← List.countP_eq_length_filter]
        exact hcount
      obtain ⟨a, ha⟩ := List.length_eq_one.mp hflen
      have h1 : l ∈ (linesOf md).filter isH1Line := List.mem_filter.mpr ⟨hmem, hl⟩
      have h2 : m ∈ (linesOf md).filter isH1Line := List.mem_filter.mpr ⟨hm_mem, hm_p⟩
      rw [ha] at h1 h2
      simp only [List.mem_singleton] at h1 h2
      rw [h1, ← h2]
      simp [extractTitle, hfind]
  exact ⟨hmain, by unfold convertedDocument; rw [hmain]⟩

/-- Witness for C4: the spec's own example `# Hello\n\nWorld` yields the
title `Hello`. -/
theorem c4_witness :
    extractTitle "# Hello\n\nWorld" "test.md" = strDrop "# Hello" 2 ∧
    convertedDocument id "# Hello\n\nWorld" "test.md" =
      createHtmlDocument (strDrop "# Hello" 2) (id "# Hello\n\nWorld") :=
  c4_unique_h1_title "# Hello\n\nWorld" "test.md" "# Hello" id
    (by decide) (by decide) (by decide)

/-- **C5.**  For every markdown input none of whose lines matches the H1
regex, the extracted title is the input file's base name with its `.md`
extension removed (stated for inputs that do carry the `.md` extension with
a non-empty stem — the reading of "markdown input file"; Node's
`path.basename(f, '.md')` strips the suffix exactly in that case). -/
theorem c5_no_h1_fallback (md f : String)
    (hno : (linesOf md).all (fun l => !isH1Line l) = true)
    (hext : strEndsWith (basenamePlain f) ".md" = true)
    (hne : basenamePlain f ≠ ".md") :
    extractTitle md f = strDropRight (basenamePlain f) 3 := by
  have hfind : (linesOf md).find? isH1Line = none := by
    rw [List.find?_eq_none]
    intro x hx
    have := List.all_eq_true.mp hno x hx
    simpa using this
  have hfne : ¬ f = ".md" := by
    intro h
    rw [h] at hne
    exact hne (by decide)
  simp only [extractTitle, hfind]
  simp [basenameMd, hfne, hext, hne]

/-- Witness for C5: a headingless document converted from
`docs/2026-02-27-1m-context-window.md` gets the title
`2026-02-27-1m-context-window`. -/
theorem c5_witness :
    extractTitle "plain text\nno heading" "docs/2026-02-27-1m-context-window.md" =
      strDropRight (basenamePlain "docs/2026-02-27-1m-context-window.md") 3 :=
  c5_no_h1_fallback "plain text\nno heading" "docs/2026-02-27-1m-context-window.md"
    (by decide) (by decide) (by decide)

/-- **C7.**  The direct sender exits 1 without issuing any HTTP request
when no positional argument is given (usage string), when
`READWISE_ACCESS_TOKEN` is unset (reported by name; the check precedes the
file read, so the outcome is the same whatever the file's readability —
the conclusion holds for every `file` value), or when reading the HTML
file throws (the error's message is reported).  Each trace is exactly the
one console message: no `httpPost` event. -/
theorem c7_sender_precondition_checks (args : List String)
    (token : Option String) (file : Except String String) :
    (args = [] → runSender args token file =
      (1, [SEvent.errMsg "Usage: node send-to-readwise.js <html-file> [title] [tags] [notes]"])) ∧
    (∀ f rest, args = f :: rest → token = none →
      runSender args token file =
        (1, [SEvent.errMsg "Error: READWISE_ACCESS_TOKEN not set"])) ∧
    (∀ f rest tk e, args = f :: rest → token = some tk → tk ≠ "" →
      file = Except.error e →
      runSender args token file = (1, [SEvent.errMsg ("Error: " ++ e)])) := by
  refine ⟨?_, ?_, ?_⟩
  · rintro rfl; rfl
  · rintro f rest rfl rfl; rfl
  · rintro f rest tk e rfl rfl htk rfl
    simp [runSender, htk]

/-- Witness for C7: the three failure modes at concrete inputs. -/
theorem c7_witness :
    runSender [] none (Except.error "boom") =
      (1, [SEvent.errMsg "Usage: node send-to-readwise.js <html-file> [title] [tags] [notes]"]) ∧
    runSender ["f.html"] none (Except.ok "c") =
      (1, [SEvent.errMsg "Error: READWISE_ACCESS_TOKEN not set"]) ∧
    runSender ["f.html"] (some "tok") (Except.error "ENOENT: no such file") =
      (1, [SEvent.errMsg ("Error: " ++ "ENOENT: no such file")]) :=
  ⟨(c7_sender_precondition_checks [] none (Except.error "boom")).1 rfl,
   (c7_sender_precondition_checks ["f.html"] none (Except.ok "c")).2.1
     "f.html" [] rfl rfl,
   (c7_sender_precondition_checks ["f.html"] (some "tok")
       (Except.error "ENOENT: no such file")).2.2
     "f.html" [] "tok" "ENOENT: no such file" rfl rfl (by decide) rfl⟩

/-- **C8 counterexample.**  The claim says the two entry points share one
default tag value; they do not: with no tags argument the orchestrator's
tag list is built from `"sparky"` and the sender's from `"sparky-research"`,
and the resulting lists differ. -/
theorem c8_counterexample :
    ¬ publishTagList (tagsDefault []) = senderTagList (senderTags []) := by
  decide

/-- **C8 amended.**  The default tag values of the two entry points differ:
`publish.sh` defaults to `sparky` (tag list `[sparky]`), the direct sender
to `sparky-research` (tag list `[sparky-research]`). -/
theorem c8_amended_defaults_differ :
    tagsDefault [] = "sparky" ∧ senderTags [] = "sparky-research" ∧
    publishTagList (tagsDefault []) = ["sparky"] ∧
    senderTagList (senderTags []) = ["sparky-research"] ∧
    publishTagList (tagsDefault []) ≠ senderTagList (senderTags []) := by
  refine ⟨by decide, by decide, by decide, by decide, by decide⟩

/-- **C9.**  For a renderer invocation without an explicit output argument
whose input path does not end in `.md`, the default output path
`inputFile.replace(/\.md$/, '.html')` is the input path itself, so a
successful run writes the generated HTML document to the input path,
overwriting the input file. -/
theorem c9_non_md_input_overwritten (input md : String) (mr : String → String)
    (h : strEndsWith input ".md" = false) :
    rendererDefaultOutput input = input ∧
    runConvert mr [input] (Except.ok md) =
      (0, [CEvent.write input (convertedDocument mr md input),
           CEvent.log ("✓ Converted " ++ input ++ " → " ++ input)]) := by
  have h1 : rendererDefaultOutput input = input := by
    simp [rendererDefaultOutput, h]
  exact ⟨h1, by simp [runConvert, h1]⟩

/-- Witness for C9: converting `notes.txt` writes the HTML document over
`notes.txt` itself. -/
theorem c9_witness :
    rendererDefaultOutput "notes.txt" = "notes.txt" ∧
    runConvert id ["notes.txt"] (Except.ok "hello") =
      (0, [CEvent.write "notes.txt" (convertedDocument id "hello" "notes.txt"),
           CEvent.log ("✓ Converted " ++ "notes.txt" ++ " → " ++ "notes.txt")]) :=
  c9_non_md_input_overwritten "notes.txt" "hello" id (by decide)

/-- **C10.**  The direct sender's request body never depends on the title:
two invocations identical except for the title argument produce identical
runs (same exit code, same trace, hence byte-identical JSON request body —
`senderBody` carries no title field; the `finalTitle` the source computes,
`senderFinalTitle`, is dead code). -/
theorem c10_title_never_in_request (htmlFile content t1 t2 : String)
    (rest : List String) (token : Option String) :
    runSender (htmlFile :: t1 :: rest) token (Except.ok content) =
      runSender (htmlFile :: t2 :: rest) token (Except.ok content) := by
  cases token with
  | none => rfl
  | some tk => rfl

end Sparky
